import Mathlib

/-!
# Verification of the real-time collaborative synchronization layer

This file embeds the room/presence/relay/save logic of the whiteboard
repository in Lean and proves (or refutes) the stated properties.

Embedded source files:
* `server.js` — the page-room server variant (`join-page`, `save`,
  `cursor-move`, `disconnect` handlers over the `pageConnections` map);
* `src/lib/socket-server.ts` — the board-room server variant
  (`join-board`, `stroke-operation`, `disconnect` handlers and the
  30-second stale-user sweep over the `rooms` map);
* `src/hooks/useWebSocket.ts` — the client sync agent (throttled `save`,
  pending-save buffering, flush-on-reconnect, flush-on-unmount, and the
  exponential reconnect backoff).

JavaScript `Map`s are modelled as association lists in insertion order
(`Map.set` updates in place or appends; `Map.delete` removes; iteration
follows insertion order), and `Set`s of socket ids as duplicate-free
lists.  `Math.random`-driven color draws are taken as explicit inputs.
-/

namespace WhiteboardSync

/-- JS `Map.get`: first (unique) binding of the key, if any. -/
def alGet {β : Type} (k : String) : List (String × β) → Option β
  | [] => none
  | (k', v) :: rest => if k' = k then some v else alGet k rest

/-- JS `Map.set`: update the binding in place if the key is present,
otherwise append it (insertion order preserved). -/
def alSet {β : Type} (k : String) (v : β) : List (String × β) → List (String × β)
  | [] => [(k, v)]
  | (k', v') :: rest => if k' = k then (k, v) :: rest else (k', v') :: alSet k v rest

/-- JS `Map.delete`: remove the binding of the key, if present. -/
def alDel {β : Type} (k : String) : List (String × β) → List (String × β)
  | [] => []
  | (k', v') :: rest => if k' = k then rest else (k', v') :: alDel k rest

/-- JS `Set.add` on a set of socket ids (no duplicate is introduced). -/
def setAdd (x : String) (xs : List String) : List String :=
  if x ∈ xs then xs else xs ++ [x]

/-! ## Page-room server variant (`server.js`) -/

/-- Canvas content of a save request: opaque stroke data plus the optional
`thumbnail` field the handler may overwrite, mirroring the JS spread
`{...content, thumbnail: thumbnail || content?.thumbnail}`. -/
structure Content where
  strokes : String
  thumbnail : Option String
  deriving DecidableEq

/-- JS `a || b` on the optional thumbnail string (`undefined` and the empty
string are falsy). -/
def jsOrElse (a b : Option String) : Option String :=
  match a with
  | some s => if s = "" then b else some s
  | none => b

/-- `const contentToSave = {...content, thumbnail: thumbnail || content?.thumbnail}`. -/
def contentToSave (content : Content) (thumbnail : Option String) : Content :=
  { strokes := content.strokes, thumbnail := jsOrElse thumbnail content.thumbnail }

/-- Destination of a socket emission: `socket.emit` goes to the sender,
`socket.to(room).emit` goes to every socket in the room except the sender. -/
inductive Target where
  | sender
  | room (roomId : String)
  deriving DecidableEq

/-- One emission performed by a `server.js` handler (timestamps elided). -/
structure Emission where
  target : Target
  event : String
  pageId : Option String
  userId : Option String
  content : Option Content
  count : Option Nat
  message : Option String
  deriving DecidableEq

/-- Payload of a `save` event: `{pageId, content, thumbnail}`. -/
structure SaveData where
  pageId : Option String
  content : Content
  thumbnail : Option String
  deriving DecidableEq

/-- Outcome of running a handler: persistence writes issued to the page
store (in order, including a failed attempt) and emissions performed. -/
structure SaveResult where
  writes : List (String × Content)
  emits : List Emission
  deriving DecidableEq

/-- The `save-error` emission of the `!pageId` guard:
`socket.emit('save-error', { message: 'No page ID provided' })`. -/
def noPageIdErr : Emission :=
  { target := Target.sender, event := "save-error", pageId := none,
    userId := none, content := none, count := none,
    message := some "No page ID provided" }

/-- The `save-error` emission of the catch block:
`socket.emit('save-error', { message: 'Failed to save', error: ... })`. -/
def saveFailedErr : Emission :=
  { target := Target.sender, event := "save-error", pageId := none,
    userId := none, content := none, count := none,
    message := some "Failed to save" }

/-- The `socket.on('save')` handler of `server.js`.  `uid` is the
connection's `userId` closure variable; `writeOk` is the outcome of the
single `prisma.page.update` call (the handler consults no clock and keeps
no per-page throttle state).  A missing or empty `pageId` (JS falsy) is
rejected before any write. -/
def saveHandler (uid : Option String) (d : SaveData) (writeOk : Bool) : SaveResult :=
  match d.pageId with
  | none => { writes := [], emits := [noPageIdErr] }
  | some pid =>
    if pid = "" then { writes := [], emits := [noPageIdErr] }
    else
      let c := contentToSave d.content d.thumbnail
      if writeOk then
        { writes := [(pid, c)],
          emits :=
            [ { target := Target.sender, event := "saved", pageId := some pid,
                userId := none, content := none, count := none, message := none },
              { target := Target.room ("page:" ++ pid), event := "sync",
                pageId := some pid, userId := uid, content := some c,
                count := none, message := none } ] }
      else
        { writes := [(pid, c)], emits := [saveFailedErr] }

/-- Sequential processing of several save requests by the one event-loop
thread, concatenating writes and emissions in arrival order. -/
def processSaves (uid : Option String) (reqs : List (SaveData × Bool)) : SaveResult :=
  reqs.foldl
    (fun acc r =>
      let res := saveHandler uid r.1 r.2
      { writes := acc.writes ++ res.writes, emits := acc.emits ++ res.emits })
    { writes := [], emits := [] }

/-- Per-connection closure state of `server.js` (`currentPageId`, `userId`)
plus the socket.io room the socket currently occupies (`socket.join`). -/
structure JsConn where
  currentPageId : Option String
  userId : Option String
  ioRoom : Option String
  deriving DecidableEq

/-- State of a fresh connection: `let currentPageId = null; let userId = null`,
not yet in any page room. -/
def JsConn.initial : JsConn :=
  { currentPageId := none, userId := none, ioRoom := none }

/-- Global state of the page-room server: the `pageConnections` map
(`pageId ↦ Set<socketId>`) and each connection's closure state. -/
structure JsServerState where
  pageConnections : List (String × List String)
  conns : List (String × JsConn)
  deriving DecidableEq

def jsEmpty : JsServerState := { pageConnections := [], conns := [] }

def jsGetConn (sid : String) (s : JsServerState) : JsConn :=
  (alGet sid s.conns).getD JsConn.initial

/-- The `socket.on('join-page')` handler of `server.js`: records `userId`
and `currentPageId`, leaves any previous socket.io room (only the
transport-level membership — `pageConnections` is not touched for the
previous page), joins `page:pageId`, adds the socket to that page's
connection set, and emits the `joined` ack and `user-joined` broadcast. -/
def joinPage (sid pageId userId : String) (s : JsServerState) :
    JsServerState × List Emission :=
  let conns' := alSet sid
    { currentPageId := some pageId, userId := some userId, ioRoom := some pageId }
    s.conns
  let set0 := (alGet pageId s.pageConnections).getD []
  let set1 := setAdd sid set0
  let pcs := alSet pageId set1 s.pageConnections
  ({ pageConnections := pcs, conns := conns' },
   [ { target := Target.sender, event := "joined", pageId := some pageId,
       userId := none, content := none, count := some set1.length, message := none },
     { target := Target.room ("page:" ++ pageId), event := "user-joined",
       pageId := none, userId := some userId, content := none,
       count := some set1.length, message := none } ])

/-- The `socket.on('disconnect')` handler of `server.js`: if the connection
has a current page and that page is tracked, remove the socket from the
page's connection set, emit `user-left`, and delete the entry if the set
became empty.  The dead socket's closure state is dropped. -/
def jsDisconnect (sid : String) (s : JsServerState) :
    JsServerState × List Emission :=
  let c := jsGetConn sid s
  match c.currentPageId with
  | some pid =>
    if pid = "" then ({ s with conns := alDel sid s.conns }, [])
    else
      match alGet pid s.pageConnections with
      | some set0 =>
        let set1 := set0.erase sid
        let pcs := if set1.length = 0 then alDel pid s.pageConnections
                   else alSet pid set1 s.pageConnections
        ({ pageConnections := pcs, conns := alDel sid s.conns },
         [ { target := Target.room ("page:" ++ pid), event := "user-left",
             pageId := none, userId := c.userId, content := none,
             count := some set1.length, message := none } ])
      | none => ({ s with conns := alDel sid s.conns }, [])
  | none => ({ s with conns := alDel sid s.conns }, [])

/-- Inbound events of the page-room server handled by this embedding. -/
inductive JsEvent where
  | joinPage (pageId userId : String)
  | save (d : SaveData) (writeOk : Bool)
  | disconnect
  deriving DecidableEq

/-- One event-loop step of the page-room server for socket `sid`.  The
`save` handler reads only the connection's `userId` closure variable and
mutates neither `pageConnections` nor any closure state. -/
def jsStep (sid : String) (e : JsEvent) (s : JsServerState) :
    JsServerState × SaveResult :=
  match e with
  | JsEvent.joinPage pid uid =>
    let r := joinPage sid pid uid s
    (r.1, { writes := [], emits := r.2 })
  | JsEvent.save d ok => (s, saveHandler (jsGetConn sid s).userId d ok)
  | JsEvent.disconnect =>
    let r := jsDisconnect sid s
    (r.1, { writes := [], emits := r.2 })

/-! ## Board-room server variant (`src/lib/socket-server.ts`) -/

/-- A participant's presence record (`UserPresence`). -/
structure UserPresence where
  socketId : String
  userId : String
  userName : String
  userColor : String
  cursor : Option (Int × Int)
  lastSeen : Nat
  deriving DecidableEq

/-- Per-connection closure state of `socket-server.ts` (`currentRoom`,
`currentUser`) plus the socket.io room the socket occupies. -/
structure BoardConn where
  currentRoom : Option String
  currentUser : Option UserPresence
  ioRoom : Option String
  deriving DecidableEq

def BoardConn.initial : BoardConn :=
  { currentRoom := none, currentUser := none, ioRoom := none }

/-- Global state of the board-room server: the `rooms` map
(`roomId ↦ Map<socketId, UserPresence>`) and each connection's closure
state. -/
structure BoardServerState where
  rooms : List (String × List (String × UserPresence))
  conns : List (String × BoardConn)
  deriving DecidableEq

def boardEmpty : BoardServerState := { rooms := [], conns := [] }

def boardGetConn (sid : String) (s : BoardServerState) : BoardConn :=
  (alGet sid s.conns).getD BoardConn.initial

/-- A `presence-update` broadcast: `io.to(roomId).emit('presence-update',
Array.from(users.values()))`. -/
structure PresenceBroadcast where
  roomId : String
  users : List UserPresence
  deriving DecidableEq

/-- Result of the `join-board` handler: new state, `presence-update`
broadcasts in emission order, and the `joined` ack sent to the joining
socket (`{socketId, userColor, users}`). -/
structure JoinResult where
  state : BoardServerState
  broadcasts : List PresenceBroadcast
  joinedAck : String × List UserPresence
  deriving DecidableEq

/-- The `socket.on('join-board')` handler of `socket-server.ts`.  `color`
is the value of the `generateUserColor()` random draw, `now` the value of
`Date.now()`.  If the connection is in a previous room it is removed from
that room's user map and a `presence-update` is broadcast there — but the
previous room is NOT deleted when it becomes empty (only the disconnect
handler and the stale sweep delete empty rooms).  Then the socket joins
the new room, its presence record is (re)created, inserted, and announced. -/
def joinBoard (sid boardId pageId userId userName color : String) (now : Nat)
    (s : BoardServerState) : JoinResult :=
  let roomId := boardId ++ ":" ++ pageId
  let c := boardGetConn sid s
  let step1 : BoardServerState × List PresenceBroadcast :=
    match c.currentRoom with
    | some prev =>
      match alGet prev s.rooms with
      | some roomUsers =>
        let remaining := alDel sid roomUsers
        ({ rooms := alSet prev remaining s.rooms, conns := s.conns },
         [{ roomId := prev, users := remaining.map Prod.snd }])
      | none => (s, [])
    | none => (s, [])
  let user : UserPresence :=
    { socketId := sid, userId := userId,
      userName := if userName = "" then "Anonymous" else userName,
      userColor := color, cursor := none, lastSeen := now }
  let roomUsers1 := alSet sid user ((alGet roomId step1.1.rooms).getD [])
  let rooms' := alSet roomId roomUsers1 step1.1.rooms
  let conns' := alSet sid
    { currentRoom := some roomId, currentUser := some user, ioRoom := some roomId }
    step1.1.conns
  { state := { rooms := rooms', conns := conns' },
    broadcasts := step1.2 ++ [{ roomId := roomId, users := roomUsers1.map Prod.snd }],
    joinedAck := (color, roomUsers1.map Prod.snd) }

/-- The `socket.on('disconnect')` handler of `socket-server.ts`: if the
connection is in a room, delete it from the room's user map, broadcast the
updated presence, and delete the room if it became empty. -/
def boardDisconnect (sid : String) (s : BoardServerState) :
    BoardServerState × List PresenceBroadcast :=
  let c := boardGetConn sid s
  match c.currentRoom with
  | some rid =>
    match alGet rid s.rooms with
    | some roomUsers =>
      let remaining := alDel sid roomUsers
      let rooms' := if remaining.length = 0 then alDel rid s.rooms
                    else alSet rid remaining s.rooms
      ({ rooms := rooms', conns := alDel sid s.conns },
       [{ roomId := rid, users := remaining.map Prod.snd }])
    | none => ({ s with conns := alDel sid s.conns }, [])
  | none => ({ s with conns := alDel sid s.conns }, [])

/-- A stroke mutation event (`StrokeOperation`), the stroke body elided. -/
structure StrokeOp where
  opType : String
  strokeId : Option String
  pageId : String
  userId : String
  timestamp : Nat
  deriving DecidableEq

/-- A relayed stroke operation: `{...operation, senderId: socket.id}`. -/
structure StampedOp where
  op : StrokeOp
  senderId : String
  deriving DecidableEq

/-- The `socket.on('stroke-operation')` handler of `socket-server.ts`:
a no-op when the sender has no current room; otherwise
`socket.to(currentRoom).emit('stroke-operation', {...operation, senderId})`
delivers the stamped operation to every socket in the room except the
sender.  Returns the list of (recipient, message) deliveries. -/
def strokeOperation (sid : String) (op : StrokeOp) (s : BoardServerState) :
    List (String × StampedOp) :=
  match (boardGetConn sid s).currentRoom with
  | none => []
  | some rid =>
    (s.conns.filter (fun p => decide (p.1 ≠ sid ∧ p.2.ioRoom = some rid))).map
      (fun p => (p.1, { op := op, senderId := sid }))

/-- `const STALE_THRESHOLD = 60000; // 60 seconds`. -/
def STALE_THRESHOLD : Nat := 60000

/-- The sweep interval: `setInterval(..., 30000)`. -/
def SWEEP_INTERVAL_MS : Nat := 30000

/-- The sweep's staleness test `now - user.lastSeen > STALE_THRESHOLD`
(over JS numbers; equivalently `lastSeen + STALE_THRESHOLD < now`). -/
def isStale (now : Nat) (u : UserPresence) : Bool :=
  decide (u.lastSeen + STALE_THRESHOLD < now)

/-- Inner loop of the stale sweep over one room's user map:
`for (const [socketId, user] of users)` visits entries in insertion order;
each stale entry is deleted in place and a `presence-update` with the
map's current remaining values (`kept ++ rest`) is emitted at deletion
time.  `kept` accumulates the already-visited retained entries. -/
def pruneRoomUsers (roomId : String) (now : Nat) :
    List (String × UserPresence) → List (String × UserPresence) →
    List (String × UserPresence) × List PresenceBroadcast
  | kept, [] => (kept, [])
  | kept, (sid, u) :: rest =>
    if isStale now u then
      let r := pruneRoomUsers roomId now kept rest
      (r.1, { roomId := roomId, users := (kept ++ rest).map Prod.snd } :: r.2)
    else
      pruneRoomUsers roomId now (kept ++ [(sid, u)]) rest

/-- Outer loop of the stale sweep: `for (const [roomId, users] of rooms)`,
pruning each room's users and then deleting the room if its user map is
empty (`users.size === 0`). -/
def pruneSweep (now : Nat) :
    List (String × List (String × UserPresence)) →
    List (String × List (String × UserPresence)) × List PresenceBroadcast
  | [] => ([], [])
  | (rid, users) :: rest =>
    let pr := pruneRoomUsers rid now [] users
    let tailRes := pruneSweep now rest
    if pr.1.length = 0 then (tailRes.1, pr.2 ++ tailRes.2)
    else ((rid, pr.1) :: tailRes.1, pr.2 ++ tailRes.2)

/-- One run of the 30-second `setInterval` sweep on the full server state
(closure states of live sockets are untouched by the sweep). -/
def boardPruneSweep (now : Nat) (s : BoardServerState) :
    BoardServerState × List PresenceBroadcast :=
  let pr := pruneSweep now s.rooms
  ({ rooms := pr.1, conns := s.conns }, pr.2)

/-! ## Client sync agent (`src/hooks/useWebSocket.ts`) -/

/-- `const THROTTLE_MS = 500; // Minimum time between saves`. -/
def THROTTLE_MS : Nat := 500

/-- `const maxReconnectAttempts = 5`. -/
def maxReconnectAttempts : Nat := 5

/-- Payload of a client save call (`content`, optional `thumbnail`); the
`pageId` is the hook's fixed current page. -/
structure SavePayload where
  content : Content
  thumbnail : Option String
  deriving DecidableEq

/-- Client-side save state of the hook: connection status, the
`lastSaveTime` ref, the single `pendingSave` slot, the scheduled fire
time of `saveTimeoutRef` (if a timeout is pending), and the `save` events
emitted so far, each with its emission time. -/
structure ClientState where
  connected : Bool
  lastSaveTime : Nat
  pending : Option SavePayload
  timerAt : Option Nat
  sent : List (Nat × SavePayload)
  deriving DecidableEq

/-- The hook's throttled `save` function at time `now`.  Disconnected
(`!socketRef.current || status !== 'connected'`): the payload is stored in
the single pending slot, overwriting any earlier value.  Within the
throttle window (`now - lastSaveTime < THROTTLE_MS` over JS numbers,
equivalently `now < lastSaveTime + THROTTLE_MS`): the pending slot is
overwritten and the timeout is (re)scheduled to fire
`THROTTLE_MS - timeSinceLastSave` later, i.e. at
`lastSaveTime + THROTTLE_MS`.  Otherwise the save is emitted immediately,
`lastSaveTime` is set to `now` and the pending slot cleared. -/
def clientSave (now : Nat) (p : SavePayload) (s : ClientState) : ClientState :=
  if !s.connected then
    { s with pending := some p }
  else if now < s.lastSaveTime + THROTTLE_MS then
    { s with pending := some p, timerAt := some (s.lastSaveTime + THROTTLE_MS) }
  else
    { s with sent := s.sent ++ [(now, p)], lastSaveTime := now, pending := none }

/-- The `setTimeout` callback firing at its scheduled time: if a pending
save exists and the socket is connected, emit it, set `lastSaveTime` and
clear the pending slot; the timeout is consumed either way. -/
def timerFire (s : ClientState) : ClientState :=
  match s.timerAt with
  | none => s
  | some t =>
    match s.pending with
    | some p =>
      if s.connected then
        { connected := s.connected, lastSaveTime := t, pending := none,
          timerAt := none, sent := s.sent ++ [(t, p)] }
      else { s with timerAt := none }
    | none => { s with timerAt := none }

/-- The "send pending save when connection is restored" effect, run at
time `now` once `status === 'connected'`: emits the pending payload (if
any) exactly once and clears the slot. -/
def reconnectFlush (now : Nat) (s : ClientState) : ClientState :=
  if s.connected then
    match s.pending with
    | some p =>
      { s with sent := s.sent ++ [(now, p)], lastSaveTime := now, pending := none }
    | none => s
  else s

/-- The unmount/page-change cleanup effect: if a pending save exists and
the socket is connected, flush it immediately (to the page id closed
over), clear the slot and cancel the timeout.  `lastSaveTime` is not
updated here. -/
def unmountFlush (now : Nat) (s : ClientState) : ClientState :=
  match s.pending with
  | some p =>
    if s.connected then
      { s with sent := s.sent ++ [(now, p)], pending := none, timerAt := none }
    else s
  | none => s

/-- A sequence of `save` calls, each at its own time, folded left in call
order. -/
def runSaves (calls : List (Nat × SavePayload)) (s : ClientState) : ClientState :=
  calls.foldl (fun st c => clientSave c.1 c.2 st) s

/-- The backoff delay before retry `n` (retries counted from 0):
`Math.min(1000 * Math.pow(2, reconnectAttempts.current), 30000)`. -/
def reconnectDelay (n : Nat) : Nat := min (1000 * 2 ^ n) 30000

/-- Outcome of `attemptReconnect`: either a retry is scheduled after a
delay, or the terminal error is surfaced and no further retry occurs. -/
inductive ReconnectAction where
  | scheduleRetry (delay : Nat)
  | terminalError (message : String)
  deriving DecidableEq

/-- The hook's `attemptReconnect`, as a function of the current
`reconnectAttempts` counter: once the counter has reached
`maxReconnectAttempts` it sets the terminal error and returns without
scheduling; otherwise it schedules `connect()` (which increments the
counter) after the exponential-backoff delay. -/
def attemptReconnect (attempts : Nat) : ReconnectAction :=
  if maxReconnectAttempts ≤ attempts then
    ReconnectAction.terminalError "Max reconnection attempts reached"
  else
    ReconnectAction.scheduleRetry (reconnectDelay attempts)

/-! ## Concrete inputs used by counterexamples and witnesses -/

def content1 : Content := { strokes := "stroke-set-1", thumbnail := none }

def content2 : Content := { strokes := "stroke-set-2", thumbnail := none }

def req1 : SaveData := { pageId := some "page1", content := content1, thumbnail := none }

def req2 : SaveData := { pageId := some "page1", content := content2, thumbnail := none }

/-- Page-room server state after connection `c1` joins page `p1`. -/
def c2afterP1 : JsServerState := (joinPage "c1" "p1" "u1" jsEmpty).1

/-- ... and then joins page `p2` without disconnecting. -/
def c2afterP2 : JsServerState := (joinPage "c1" "p2" "u1" c2afterP1).1

/-- Board-room server state after connection `c1` joins room `board1:p1`. -/
def c3join1 : JoinResult := joinBoard "c1" "board1" "p1" "u1" "Alice" "#EF4444" 1000 boardEmpty

/-- ... and then switches to room `board1:p2`. -/
def c3join2 : JoinResult := joinBoard "c1" "board1" "p2" "u1" "Alice" "#EF4444" 2000 c3join1.state

/-- Board-room server state with `A` and `B` joined to the same room. -/
def c4state : BoardServerState :=
  (joinBoard "B" "board1" "p1" "u2" "Bob" "#10B981" 1100
    (joinBoard "A" "board1" "p1" "u1" "Alice" "#EF4444" 1000 boardEmpty).state).state

def c4op : StrokeOp :=
  { opType := "add", strokeId := some "s1", pageId := "p1", userId := "u1", timestamp := 1200 }

def staleUser : UserPresence :=
  { socketId := "S", userId := "u9", userName := "Stale", userColor := "#F59E0B",
    cursor := none, lastSeen := 100000 }

def freshUser : UserPresence :=
  { socketId := "F", userId := "u8", userName := "Fresh", userColor := "#3B82F6",
    cursor := none, lastSeen := 190000 }

/-- Two rooms at sweep time 200000: one with a stale and a fresh user, one
whose only user is stale (so it must be emptied and deleted). -/
def demoRooms : List (String × List (String × UserPresence)) :=
  [("board1:p1", [("S", staleUser), ("F", freshUser)]),
   ("board1:p2", [("S2", { staleUser with socketId := "S2" })])]

def payloadA : SavePayload := { content := content1, thumbnail := none }

def payloadB : SavePayload := { content := content2, thumbnail := none }

def clientIdle : ClientState :=
  { connected := true, lastSaveTime := 10000, pending := none, timerAt := none, sent := [] }

def clientOffline : ClientState :=
  { connected := false, lastSaveTime := 10000, pending := none, timerAt := none, sent := [] }

def clientPending : ClientState :=
  { connected := true, lastSaveTime := 10000, pending := some payloadB,
    timerAt := some 10500, sent := [] }

/-- A save request whose payload has no `pageId` field. -/
def reqNoPid : SaveData := { pageId := none, content := content1, thumbnail := none }

/-! ## Helper lemmas -/

theorem alGet_eq_none_of_not_mem {β : Type} (k : String) (l : List (String × β))
    (h : k ∉ l.map Prod.fst) : alGet k l = none := by
  induction l with
  | nil => rfl
  | cons hd tl ih =>
    obtain ⟨k', v'⟩ := hd
    simp only [List.map_cons, List.mem_cons, not_or] at h
    have hne : ¬k' = k := fun hkk => h.1 hkk.symm
    simp [alGet, hne, ih h.2]

theorem alGet_alDel_self {β : Type} (k : String) (l : List (String × β))
    (hnd : (l.map Prod.fst).Nodup) : alGet k (alDel k l) = none := by
  induction l with
  | nil => rfl
  | cons hd tl ih =>
    obtain ⟨k', v'⟩ := hd
    simp only [List.map_cons, List.nodup_cons] at hnd
    by_cases h : k' = k
    · simp only [alDel, h, if_pos rfl]
      exact alGet_eq_none_of_not_mem k tl (h ▸ hnd.1)
    · simp [alDel, h, alGet, ih hnd.2]

theorem pruneRoomUsers_fst (roomId : String) (now : Nat)
    (rest : List (String × UserPresence)) :
    ∀ kept, (pruneRoomUsers roomId now kept rest).1 =
      kept ++ rest.filter (fun q => !isStale now q.2) := by
  induction rest with
  | nil => intro kept; simp [pruneRoomUsers]
  | cons hd tl ih =>
    intro kept
    obtain ⟨sid, u⟩ := hd
    cases h : isStale now u with
    | true => simp [pruneRoomUsers, h, ih kept]
    | false => simp [pruneRoomUsers, h, ih (kept ++ [(sid, u)])]

theorem pruneRoomUsers_snd_roomId (roomId : String) (now : Nat)
    (rest : List (String × UserPresence)) :
    ∀ kept, ∀ b ∈ (pruneRoomUsers roomId now kept rest).2, b.roomId = roomId := by
  induction rest with
  | nil => intro kept b hb; simp [pruneRoomUsers] at hb
  | cons hd tl ih =>
    intro kept b hb
    obtain ⟨sid, u⟩ := hd
    cases h : isStale now u with
    | true =>
      simp only [pruneRoomUsers, h, if_pos rfl] at hb
      cases hb with
      | head => rfl
      | tail _ hb => exact ih kept b hb
    | false =>
      simp only [pruneRoomUsers, h] at hb
      exact ih (kept ++ [(sid, u)]) b hb

theorem pruneRoomUsers_snd_ne_nil (roomId : String) (now : Nat)
    (rest : List (String × UserPresence)) :
    ∀ kept, (∃ q ∈ rest, isStale now q.2 = true) →
      (pruneRoomUsers roomId now kept rest).2 ≠ [] := by
  induction rest with
  | nil => intro kept h; simp at h
  | cons hd tl ih =>
    intro kept h
    obtain ⟨sid, u⟩ := hd
    cases hu : isStale now u with
    | true => simp [pruneRoomUsers, hu]
    | false =>
      simp only [pruneRoomUsers, hu, Bool.false_eq_true, if_neg]
      rcases h with ⟨q, hq, hstale⟩
      rcases List.mem_cons.mp hq with rfl | hq'
      · rw [hu] at hstale; exact absurd hstale (by simp)
      · exact ih (kept ++ [(sid, u)]) ⟨q, hq', hstale⟩

theorem pruneSweep_snd_cons (now : Nat) (rid : String)
    (users : List (String × UserPresence))
    (rest : List (String × List (String × UserPresence))) :
    (pruneSweep now ((rid, users) :: rest)).2 =
      (pruneRoomUsers rid now [] users).2 ++ (pruneSweep now rest).2 := by
  simp only [pruneSweep]
  split <;> rfl

theorem pruneSweep_fst (now : Nat)
    (rooms : List (String × List (String × UserPresence))) :
    (pruneSweep now rooms).1 =
      (rooms.map (fun r => (r.1, r.2.filter (fun q => !isStale now q.2)))).filter
        (fun r => !r.2.isEmpty) := by
  induction rooms with
  | nil => simp [pruneSweep]
  | cons hd tl ih =>
    obtain ⟨rid, users⟩ := hd
    by_cases h : users.filter (fun q => !isStale now q.2) = []
    · simp [pruneSweep, pruneRoomUsers_fst, h, ih]
    · simp [pruneSweep, pruneRoomUsers_fst, h, ih, List.length_eq_zero]

theorem pruneSweep_changed_broadcast (now : Nat)
    (rooms : List (String × List (String × UserPresence))) :
    ∀ r ∈ rooms, (∃ q ∈ r.2, isStale now q.2 = true) →
      ∃ b ∈ (pruneSweep now rooms).2, b.roomId = r.1 := by
  induction rooms with
  | nil => intro r hr; simp at hr
  | cons hd tl ih =>
    intro r hr hstale
    obtain ⟨rid, users⟩ := hd
    rw [pruneSweep_snd_cons]
    rcases List.mem_cons.mp hr with rfl | hr'
    · have hne := pruneRoomUsers_snd_ne_nil rid now users [] hstale
      rcases List.exists_mem_of_ne_nil _ hne with ⟨b, hb⟩
      exact ⟨b, List.mem_append_left _ hb,
        pruneRoomUsers_snd_roomId rid now users [] b hb⟩
    · rcases ih r hr' hstale with ⟨b, hb, hrid⟩
      exact ⟨b, List.mem_append_right _ hb, hrid⟩

theorem clientSave_offline (now : Nat) (p : SavePayload) (s : ClientState)
    (h : s.connected = false) :
    clientSave now p s = { s with pending := some p } := by
  simp [clientSave, h]

theorem runSaves_offline_aux (calls : List (Nat × SavePayload)) :
    ∀ s : ClientState, s.connected = false →
      ∃ q : Option SavePayload, runSaves calls s = { s with pending := q } := by
  induction calls with
  | nil => intro s _; exact ⟨s.pending, rfl⟩
  | cons c tl ih =>
    intro s h
    obtain ⟨q, hq⟩ := ih { s with pending := some c.2 } (by simpa using h)
    refine ⟨q, ?_⟩
    simp only [runSaves, List.foldl_cons] at hq ⊢
    rw [clientSave_offline c.1 c.2 s h]
    exact hq

/-- While disconnected, a sequence of save calls emits nothing and leaves
exactly the last payload in the pending slot. -/
theorem runSaves_offline (s : ClientState) (calls : List (Nat × SavePayload))
    (a : Nat × SavePayload) (hdisc : s.connected = false)
    (ha : calls.getLast? = some a) :
    runSaves calls s = { s with pending := some a.2 } := by
  rcases List.eq_nil_or_concat calls with rfl | ⟨init, b, rfl⟩
  · simp at ha
  · rw [List.concat_eq_append] at ha ⊢
    rw [List.getLast?_concat] at ha
    obtain rfl : a = b := (Option.some_inj.mp ha).symm
    obtain ⟨q, hq⟩ := runSaves_offline_aux init s hdisc
    have hsplit : runSaves (init ++ [a]) s = clientSave a.1 a.2 (runSaves init s) := by
      simp [runSaves, List.foldl_append]
    rw [hsplit, hq, clientSave_offline _ _ _ (by simpa using hdisc)]

theorem clientSave_window (now : Nat) (p : SavePayload) (s : ClientState)
    (hconn : s.connected = true) (hwin : now < s.lastSaveTime + THROTTLE_MS) :
    clientSave now p s =
      { s with pending := some p, timerAt := some (s.lastSaveTime + THROTTLE_MS) } := by
  simp [clientSave, hconn, hwin]

theorem runSaves_window_aux (calls : List (Nat × SavePayload)) :
    ∀ s : ClientState, s.connected = true →
      (∀ c ∈ calls, c.1 < s.lastSaveTime + THROTTLE_MS) →
      ∃ (q : Option SavePayload) (ta : Option Nat),
        runSaves calls s = { s with pending := q, timerAt := ta } := by
  induction calls with
  | nil => intro s _ _; exact ⟨s.pending, s.timerAt, rfl⟩
  | cons c tl ih =>
    intro s hconn hwin
    have hc := hwin c (List.mem_cons_self c tl)
    obtain ⟨q, ta, hq⟩ :=
      ih { s with pending := some c.2, timerAt := some (s.lastSaveTime + THROTTLE_MS) }
        (by simpa using hconn)
        (by intro x hx; simpa using hwin x (List.mem_cons_of_mem c hx))
    refine ⟨q, ta, ?_⟩
    simp only [runSaves, List.foldl_cons] at hq ⊢
    rw [clientSave_window c.1 c.2 s hconn hc]
    exact hq

/-- While connected but inside the open throttle window
`[lastSaveTime, lastSaveTime + THROTTLE_MS)`, a sequence of save calls
emits nothing, leaves exactly the last payload pending, and leaves the
throttle timer armed for `lastSaveTime + THROTTLE_MS`. -/
theorem runSaves_window (s : ClientState) (calls : List (Nat × SavePayload))
    (a : Nat × SavePayload) (hconn : s.connected = true)
    (hwin : ∀ c ∈ calls, c.1 < s.lastSaveTime + THROTTLE_MS)
    (ha : calls.getLast? = some a) :
    runSaves calls s =
      { s with pending := some a.2,
               timerAt := some (s.lastSaveTime + THROTTLE_MS) } := by
  rcases List.eq_nil_or_concat calls with rfl | ⟨init, b, rfl⟩
  · simp at ha
  · rw [List.concat_eq_append] at ha hwin ⊢
    rw [List.getLast?_concat] at ha
    obtain rfl : a = b := (Option.some_inj.mp ha).symm
    obtain ⟨q, ta, hq⟩ := runSaves_window_aux init s hconn
      (fun c hc => hwin c (List.mem_append_left _ hc))
    have hsplit : runSaves (init ++ [a]) s = clientSave a.1 a.2 (runSaves init s) := by
      simp [runSaves, List.foldl_append]
    have hlast : a.1 < s.lastSaveTime + THROTTLE_MS :=
      hwin a (List.mem_append_right _ (List.mem_cons_self a []))
    rw [hsplit, hq, clientSave_window _ _ _ (by simpa using hconn) (by simpa using hlast)]

/-! ## Claim theorems -/

/-- C1 (counterexample): the `server.js` save handler consults no clock and
keeps no per-page throttle state, so two valid save requests for the same
page — however close together, e.g. 100ms apart inside one 500ms window —
each trigger a persistence write, the first carrying the first request's
content.  This refutes the claimed server-side coalescing ("exactly one
persistence write, using the content of the last request"). -/
theorem c1_no_server_throttle :
    (processSaves (some "u1") [(req1, true), (req2, true)]).writes =
      [("page1", contentToSave content1 none), ("page1", contentToSave content2 none)] ∧
    (processSaves (some "u1") [(req1, true), (req2, true)]).writes.length ≠ 1 := by
  decide

/-- C1 (amended): the 500ms coalescing is enforced client-side, not
server-side.  The page-room server performs exactly one persistence write
per valid save request it receives, regardless of arrival times; on the
client, save calls issued while the 500ms throttle window after the last
sent save is still open emit nothing, coalesce into the single pending
slot (the last content wins), and the armed throttle timer then emits
exactly one save request carrying that last content, exactly 500ms after
the previous send (so completed sends are at least 500ms apart). -/
theorem c1_client_side_coalescing (uid : Option String) (pid : String) (d : SaveData)
    (ok : Bool) (s : ClientState) (calls : List (Nat × SavePayload))
    (lastCall : Nat × SavePayload)
    (hpid : d.pageId = some pid) (hne : pid ≠ "")
    (hconn : s.connected = true)
    (hwin : ∀ c ∈ calls, c.1 < s.lastSaveTime + THROTTLE_MS)
    (hlast : calls.getLast? = some lastCall) :
    (saveHandler uid d ok).writes = [(pid, contentToSave d.content d.thumbnail)] ∧
    (runSaves calls s).sent = s.sent ∧
    (runSaves calls s).pending = some lastCall.2 ∧
    timerFire (runSaves calls s) =
      { connected := true, lastSaveTime := s.lastSaveTime + THROTTLE_MS,
        pending := none, timerAt := none,
        sent := s.sent ++ [(s.lastSaveTime + THROTTLE_MS, lastCall.2)] } := by
  have hrw := runSaves_window s calls lastCall hconn hwin hlast
  refine ⟨?_, by rw [hrw], by rw [hrw], ?_⟩
  · cases ok <;> simp [saveHandler, hpid, hne]
  · rw [hrw]; simp [timerFire, hconn]

/-- C1 (witness): a burst of two client save calls at 10100ms and 10200ms,
100ms apart, inside the window opened by a send at 10000ms. -/
theorem c1_client_side_coalescing_witness :
    (saveHandler (some "u1") req1 true).writes =
      [("page1", contentToSave req1.content req1.thumbnail)] ∧
    (runSaves [(10100, payloadA), (10200, payloadB)] clientIdle).sent = clientIdle.sent ∧
    (runSaves [(10100, payloadA), (10200, payloadB)] clientIdle).pending =
      some (10200, payloadB).2 ∧
    timerFire (runSaves [(10100, payloadA), (10200, payloadB)] clientIdle) =
      { connected := true, lastSaveTime := clientIdle.lastSaveTime + THROTTLE_MS,
        pending := none, timerAt := none,
        sent := clientIdle.sent ++
          [(clientIdle.lastSaveTime + THROTTLE_MS, (10200, payloadB).2)] } :=
  c1_client_side_coalescing (some "u1") "page1" req1 true clientIdle
    [(10100, payloadA), (10200, payloadB)] (10200, payloadB)
    rfl (by decide) rfl (by decide) rfl

/-- C2 (code_bug): after `join-page(p1)` then `join-page(p2)` by the same
connection, the `server.js` registry `pageConnections` holds the
connection in BOTH pages' participant sets: the handler leaves only the
transport-level socket.io room and never removes the socket from the
previous page's tracked set — violating "a connection appears in at most
one room's participant set" even though the handler's own comment says
"Leave any previous room" (and the `socket-server.ts` variant does remove
it). -/
theorem c2_membership_violation :
    alGet "p1" c2afterP2.pageConnections = some ["c1"] ∧
    alGet "p2" c2afterP2.pageConnections = some ["c1"] ∧
    (jsGetConn "c1" c2afterP2).ioRoom = some "p2" := by
  decide

/-- C3 (counterexample): when the last participant of room `board1:p1`
switches to `board1:p2`, the `join-board` leave-previous-room block of
`socket-server.ts` deletes the user from the old room but does not delete
the now-empty room, so the registry retains `board1:p1` with an empty
participant set — refuting "the registry never retains a room with an
empty participant set". -/
theorem c3_empty_room_retained :
    alGet "board1:p1" c3join2.state.rooms = some [] := by
  decide

/-- C3 (amended): empty rooms are deleted when emptied by a disconnect and
by every 30-second staleness sweep (whose output never contains an empty
room, however it became empty); but a room emptied because its last
participant switched rooms via `join-board` stays in the registry, empty,
until the next sweep. -/
theorem c3_empty_room_cleanup (s : BoardServerState) (sid rid : String)
    (users : List (String × UserPresence)) (now : Nat)
    (rooms : List (String × List (String × UserPresence)))
    (hnd : (s.rooms.map Prod.fst).Nodup)
    (hc : (boardGetConn sid s).currentRoom = some rid)
    (hu : alGet rid s.rooms = some users)
    (he : alDel sid users = []) :
    alGet rid (boardDisconnect sid s).1.rooms = none ∧
    (∀ r ∈ (pruneSweep now rooms).1, r.2 ≠ []) := by
  constructor
  · simp only [boardDisconnect, hc, hu, he, List.length_nil, if_pos rfl]
    exact alGet_alDel_self rid s.rooms hnd
  · intro r hr
    rw [pruneSweep_fst] at hr
    have hcond := List.of_mem_filter hr
    simpa using hcond

/-- C3 (witness): the sole participant of `board1:p1` disconnects and the
room disappears; the sweep at time 200000 leaves no empty room. -/
theorem c3_empty_room_cleanup_witness :
    alGet "board1:p1" (boardDisconnect "c1" c3join1.state).1.rooms = none ∧
    (∀ r ∈ (pruneSweep 200000 demoRooms).1, r.2 ≠ []) :=
  c3_empty_room_cleanup c3join1.state "c1" "board1:p1"
    [("c1", { socketId := "c1", userId := "u1", userName := "Alice",
              userColor := "#EF4444", cursor := none, lastSeen := 1000 })]
    200000 demoRooms (by decide) (by decide) (by decide) (by decide)

/-- C4 (confirmed): the `stroke-operation` relay of `socket-server.ts`
stamps every delivered message with the sender's connection id, never
delivers to the sender itself, and delivers to every other socket that is
in the sender's current room. -/
theorem c4_echo_suppression (s : BoardServerState) (sid rid : String) (op : StrokeOp)
    (hr : (boardGetConn sid s).currentRoom = some rid) :
    (∀ m ∈ strokeOperation sid op s, m.1 ≠ sid ∧
      m.2 = { op := op, senderId := sid }) ∧
    (∀ q ∈ s.conns, q.1 ≠ sid → q.2.ioRoom = some rid →
      (q.1, { op := op, senderId := sid }) ∈ strokeOperation sid op s) := by
  constructor
  · intro m hm
    simp only [strokeOperation, hr, List.mem_map, List.mem_filter] at hm
    obtain ⟨p, ⟨_, hpcond⟩, rfl⟩ := hm
    exact ⟨(of_decide_eq_true hpcond).1, rfl⟩
  · intro q hq hne hio
    simp only [strokeOperation, hr, List.mem_map]
    exact ⟨q, List.mem_filter.mpr ⟨hq, decide_eq_true ⟨hne, hio⟩⟩, rfl⟩

/-- C4 (witness): with `A` and `B` joined to `board1:p1`, a stroke
operation from `A` reaches `B` (stamped `senderId = A`) and never `A`. -/
theorem c4_echo_suppression_witness :
    (∀ m ∈ strokeOperation "A" c4op c4state, m.1 ≠ "A" ∧
      m.2 = { op := c4op, senderId := "A" }) ∧
    (∀ q ∈ c4state.conns, q.1 ≠ "A" → q.2.ioRoom = some "board1:p1" →
      (q.1, { op := c4op, senderId := "A" }) ∈ strokeOperation "A" c4op c4state) :=
  c4_echo_suppression c4state "A" "board1:p1" c4op (by decide)

/-- C5 (confirmed): saves requested while the transport is disconnected are
held in the single pending slot (a newer request overwrites any earlier
unsent value, nothing is emitted); once connectivity is restored the flush
effect sends exactly one save request carrying the most recent content and
clears the slot; and the unmount cleanup flushes a pending save
synchronously (when connected), also clearing the slot. -/
theorem c5_offline_pending_buffering (s : ClientState)
    (calls : List (Nat × SavePayload)) (lastCall : Nat × SavePayload)
    (t : Nat) (s' : ClientState) (p : SavePayload) (u : Nat)
    (hdisc : s.connected = false) (hlast : calls.getLast? = some lastCall)
    (hconn' : s'.connected = true) (hp : s'.pending = some p) :
    (runSaves calls s).sent = s.sent ∧
    (runSaves calls s).pending = some lastCall.2 ∧
    reconnectFlush t { runSaves calls s with connected := true } =
      { connected := true, lastSaveTime := t, pending := none,
        timerAt := s.timerAt, sent := s.sent ++ [(t, lastCall.2)] } ∧
    (unmountFlush u s').sent = s'.sent ++ [(u, p)] ∧
    (unmountFlush u s').pending = none := by
  have hro := runSaves_offline s calls lastCall hdisc hlast
  refine ⟨by rw [hro], by rw [hro], ?_, ?_, ?_⟩
  · rw [hro]; simp [reconnectFlush]
  · simp [unmountFlush, hp, hconn']
  · simp [unmountFlush, hp, hconn']

/-- C5 (witness): two saves while offline, then a reconnect at 30000ms;
and an unmount flush of a connected client with a pending save. -/
theorem c5_offline_pending_buffering_witness :
    (runSaves [(20000, payloadA), (20050, payloadB)] clientOffline).sent =
      clientOffline.sent ∧
    (runSaves [(20000, payloadA), (20050, payloadB)] clientOffline).pending =
      some (20050, payloadB).2 ∧
    reconnectFlush 30000
        { runSaves [(20000, payloadA), (20050, payloadB)] clientOffline with
          connected := true } =
      { connected := true, lastSaveTime := 30000, pending := none,
        timerAt := clientOffline.timerAt,
        sent := clientOffline.sent ++ [(30000, (20050, payloadB).2)] } ∧
    (unmountFlush 40000 clientPending).sent = clientPending.sent ++ [(40000, payloadB)] ∧
    (unmountFlush 40000 clientPending).pending = none :=
  c5_offline_pending_buffering clientOffline [(20000, payloadA), (20050, payloadB)]
    (20050, payloadB) 30000 clientPending payloadB 40000 rfl rfl rfl rfl

/-- C6 (confirmed): when the persistence write fails, the `server.js` save
handler emits exactly one `save-error`, addressed to the requesting socket
only (never a room broadcast), emits neither `saved` nor `sync` for that
request, and issues no second write attempt. -/
theorem c6_save_error_isolation (uid : Option String) (d : SaveData) (pid : String)
    (hpid : d.pageId = some pid) (hne : pid ≠ "") :
    (saveHandler uid d false).emits = [saveFailedErr] ∧
    (∀ e ∈ (saveHandler uid d false).emits,
      e.target = Target.sender ∧ e.event ≠ "saved" ∧ e.event ≠ "sync") ∧
    (saveHandler uid d false).writes.length = 1 := by
  have hh : saveHandler uid d false =
      { writes := [(pid, contentToSave d.content d.thumbnail)],
        emits := [saveFailedErr] } := by
    simp [saveHandler, hpid, hne]
  rw [hh]
  refine ⟨rfl, ?_, rfl⟩
  intro e he
  simp only [List.mem_singleton] at he
  subst he
  exact ⟨rfl, by decide, by decide⟩

/-- C6 (witness): a failing write for `page1`. -/
theorem c6_save_error_isolation_witness :
    (saveHandler (some "u1") req1 false).emits = [saveFailedErr] ∧
    (∀ e ∈ (saveHandler (some "u1") req1 false).emits,
      e.target = Target.sender ∧ e.event ≠ "saved" ∧ e.event ≠ "sync") ∧
    (saveHandler (some "u1") req1 false).writes.length = 1 :=
  c6_save_error_isolation (some "u1") req1 "page1" rfl (by decide)

/-- C7 (confirmed): a save request missing `pageId` is rejected by the
guard before any write: the server state is untouched, no persistence
write is attempted, and the only emission is a `save-error` addressed to
the requesting socket. -/
theorem c7_missing_pageId_rejected (sid : String) (s : JsServerState)
    (d : SaveData) (ok : Bool) (hmiss : d.pageId = none) :
    (jsStep sid (JsEvent.save d ok) s).1 = s ∧
    (jsStep sid (JsEvent.save d ok) s).2.writes = [] ∧
    (jsStep sid (JsEvent.save d ok) s).2.emits = [noPageIdErr] ∧
    noPageIdErr.target = Target.sender := by
  simp [jsStep, saveHandler, hmiss, noPageIdErr]

/-- C7 (witness): a `save` with no `pageId` against the empty server. -/
theorem c7_missing_pageId_rejected_witness :
    (jsStep "c1" (JsEvent.save reqNoPid true) jsEmpty).1 = jsEmpty ∧
    (jsStep "c1" (JsEvent.save reqNoPid true) jsEmpty).2.writes = [] ∧
    (jsStep "c1" (JsEvent.save reqNoPid true) jsEmpty).2.emits = [noPageIdErr] ∧
    noPageIdErr.target = Target.sender :=
  c7_missing_pageId_rejected "c1" jsEmpty reqNoPid true rfl

/-- C8 (confirmed): each 30-second sweep removes from every room exactly
the participants with `now - lastSeen > 60000` (those within the threshold
are retained), deletes every room whose participant set is empty after
pruning, and emits at least one `presence-update` broadcast for every room
from which a stale participant was removed. -/
theorem c8_staleness_pruning (now : Nat)
    (rooms : List (String × List (String × UserPresence))) :
    STALE_THRESHOLD = 60000 ∧ SWEEP_INTERVAL_MS = 30000 ∧
    (pruneSweep now rooms).1 =
      (rooms.map (fun r => (r.1, r.2.filter (fun q => !isStale now q.2)))).filter
        (fun r => !r.2.isEmpty) ∧
    (∀ r ∈ rooms, (∃ q ∈ r.2, isStale now q.2 = true) →
      ∃ b ∈ (pruneSweep now rooms).2, b.roomId = r.1) :=
  ⟨rfl, rfl, pruneSweep_fst now rooms, pruneSweep_changed_broadcast now rooms⟩

/-- C8 (witness): the sweep at time 200000 on two demo rooms — the stale
user is removed, the fresh one retained, the emptied room deleted, and the
changed room gets a presence broadcast. -/
theorem c8_staleness_pruning_witness :
    (pruneSweep 200000 demoRooms).1 =
      (demoRooms.map (fun r => (r.1, r.2.filter (fun q => !isStale 200000 q.2)))).filter
        (fun r => !r.2.isEmpty) ∧
    (∃ b ∈ (pruneSweep 200000 demoRooms).2, b.roomId = "board1:p1") :=
  ⟨(c8_staleness_pruning 200000 demoRooms).2.2.1,
   (c8_staleness_pruning 200000 demoRooms).2.2.2
     ("board1:p1", [("S", staleUser), ("F", freshUser)]) (by decide)
     ⟨("S", staleUser), by decide, by decide⟩⟩

/-- C9 (confirmed): before retry `n` (counted from 0) the client waits
`min(1000 · 2^n, 30000)` ms — base 1s, doubling, capped at 30s — makes at
most `maxReconnectAttempts = 5` attempts, and once the counter reaches 5
it surfaces the terminal error instead of scheduling another retry. -/
theorem c9_reconnect_backoff :
    (∀ n, n < maxReconnectAttempts →
      attemptReconnect n = ReconnectAction.scheduleRetry (min (1000 * 2 ^ n) 30000)) ∧
    (∀ n, maxReconnectAttempts ≤ n →
      attemptReconnect n = ReconnectAction.terminalError "Max reconnection attempts reached") ∧
    maxReconnectAttempts = 5 ∧
    (List.range maxReconnectAttempts).map reconnectDelay = [1000, 2000, 4000, 8000, 16000] := by
  refine ⟨?_, ?_, rfl, by decide⟩
  · intro n h
    simp [attemptReconnect, reconnectDelay, Nat.not_le.mpr h]
  · intro n h
    simp [attemptReconnect, h]

/-- C9 (witness): the first retry waits 1000ms; the sixth attempt is
refused with the terminal error. -/
theorem c9_reconnect_backoff_witness :
    attemptReconnect 0 = ReconnectAction.scheduleRetry (min (1000 * 2 ^ 0) 30000) ∧
    attemptReconnect 5 = ReconnectAction.terminalError "Max reconnection attempts reached" :=
  ⟨c9_reconnect_backoff.1 0 (by decide), c9_reconnect_backoff.2.1 5 (by decide)⟩

/-- C10 (confirmed): in the page-room server, a save with a valid `pageId`
from a connection that never joined any room (no tracked closure state, so
`userId` is still null) is persisted and acknowledged with `saved`; the
`sync` broadcast goes to the page's room — which the sender is not a
member of, since `socket.to` excludes the sender anyway — with a null
`userId`.  Joining is not a precondition of save. -/
theorem c10_save_without_join (sid pid : String) (d : SaveData) (s : JsServerState)
    (hfresh : alGet sid s.conns = none) (hpid : d.pageId = some pid) (hne : pid ≠ "") :
    (jsStep sid (JsEvent.save d true) s).1 = s ∧
    (jsStep sid (JsEvent.save d true) s).2.writes =
      [(pid, contentToSave d.content d.thumbnail)] ∧
    (jsStep sid (JsEvent.save d true) s).2.emits =
      [ { target := Target.sender, event := "saved", pageId := some pid,
          userId := none, content := none, count := none, message := none },
        { target := Target.room ("page:" ++ pid), event := "sync",
          pageId := some pid, userId := none,
          content := some (contentToSave d.content d.thumbnail),
          count := none, message := none } ] := by
  simp [jsStep, saveHandler, jsGetConn, hfresh, hpid, hne, JsConn.initial]

/-- C10 (witness): a fresh connection saves `page1` on the empty server. -/
theorem c10_save_without_join_witness :
    (jsStep "c1" (JsEvent.save req1 true) jsEmpty).1 = jsEmpty ∧
    (jsStep "c1" (JsEvent.save req1 true) jsEmpty).2.writes =
      [("page1", contentToSave req1.content req1.thumbnail)] ∧
    (jsStep "c1" (JsEvent.save req1 true) jsEmpty).2.emits =
      [ { target := Target.sender, event := "saved", pageId := some "page1",
          userId := none, content := none, count := none, message := none },
        { target := Target.room ("page:" ++ "page1"), event := "sync",
          pageId := some "page1", userId := none,
          content := some (contentToSave req1.content req1.thumbnail),
          count := none, message := none } ] :=
  c10_save_without_join "c1" "page1" req1 jsEmpty rfl rfl (by decide)

end WhiteboardSync
